import Mathlib

/-!
Verification of the order/stock/pricing core of the techOnline e-commerce
repository: `PricingCalculator` (modules/utils/pricing_calculator.py),
`StockManager` (modules/utils/stock_manager.py), `OrderWorkflowManager`
(modules/utils/order_workflow.py) and the cart-to-order conversion routine
(api/v1/views/orders.py).

Monetary values are Python `Decimal`s computed from exact decimal literals;
they are modelled as exact rationals (`ℚ`).  `Decimal.quantize(0.01,
ROUND_HALF_UP)` is modelled by `quantize2`.  The `float(...)` conversions in
returned dictionaries are modelled as the identity on the underlying exact
value.  Database commits are modelled as always succeeding (single-threaded
semantics; the repository's `try/commit/except` blocks only fail on storage
errors, which are outside this model).
-/

namespace TechOnline

/-- Python `Decimal.quantize(Decimal('0.01'), rounding=ROUND_HALF_UP)`:
round to 2 decimal places, ties away from zero. -/
def quantize2 (x : ℚ) : ℚ :=
  if 0 ≤ x then (⌊x * 100 + 1/2⌋ : ℚ) / 100
  else -((⌊(-x) * 100 + 1/2⌋ : ℚ) / 100)

/-- Python `str.upper()` restricted to the ASCII strings used by the code. -/
def upperStr (s : String) : String :=
  ⟨s.data.map Char.toUpper⟩

deriving instance DecidableEq for Except

/-! ## PricingCalculator (modules/utils/pricing_calculator.py) -/

/-- A `{'quantity': ..., 'unit_price': ...}` line item. -/
structure Item where
  quantity : ℚ
  unit_price : ℚ
deriving DecidableEq, Repr

/-- Tax-rate table `PricingCalculator.TAX_RATES`, looked up on the uppercased
region with the `DEFAULT` entry as fallback. -/
def taxRate (region : String) : ℚ :=
  let r := upperStr region
  if r = "CA" then 875/10000
  else if r = "NY" then 8/100
  else if r = "TX" then 625/10000
  else if r = "FL" then 6/100
  else if r = "WA" then 65/1000
  else 7/100

/-- One entry of `PricingCalculator.SHIPPING_RATES`. -/
structure ShipCfg where
  base_rate : ℚ
  per_kg : ℚ
  free_shipping_threshold : ℚ
deriving DecidableEq, Repr

/-- `PricingCalculator.SHIPPING_RATES` as a partial lookup. -/
def shippingRates (method : String) : Option ShipCfg :=
  if method = "standard" then some ⟨599/100, 5/2, 75⟩
  else if method = "express" then some ⟨1299/100, 4, 150⟩
  else if method = "overnight" then some ⟨2499/100, 8, 200⟩
  else none

/-- A shipping address dictionary; `none` fields model absent keys. -/
structure Address where
  country : Option String
  state : Option String
deriving DecidableEq, Repr

/-- `PricingCalculator._calculate_distance_multiplier`. -/
def distanceMultiplier (a : Address) : ℚ :=
  let country := upperStr (a.country.getD "US")
  let state := upperStr (a.state.getD "")
  if country ≠ "US" then 2
  else if state = "CA" ∨ state = "NY" ∨ state = "TX" ∨ state = "FL" then 1
  else 13/10

/-- The accumulation loop of `PricingCalculator.calculate_subtotal`; raises on
the first negative quantity or unit price. -/
def subtotalLoop : List Item → ℚ → Except String ℚ
  | [], acc => .ok acc
  | it :: rest, acc =>
    if it.quantity < 0 ∨ it.unit_price < 0 then
      .error "Invalid order items data: invalid quantity or price"
    else
      subtotalLoop rest (acc + it.quantity * it.unit_price)

/-- `PricingCalculator.calculate_subtotal`. -/
def calculate_subtotal (items : List Item) : Except String ℚ :=
  (subtotalLoop items 0).map quantize2

/-- One entry of the predefined `discount_codes` table in `apply_discount`:
`type` (percentage vs fixed amount), `value`, optional `min_amount`. -/
structure CodeInfo where
  isPercentage : Bool
  value : ℚ
  min_amount : Option ℚ
deriving DecidableEq, Repr

/-- The `discount_codes` table in `PricingCalculator.apply_discount`. -/
def discountCodes (code : String) : Option CodeInfo :=
  if code = "WELCOME10" then some ⟨true, 10, none⟩
  else if code = "SAVE20" then some ⟨true, 20, none⟩
  else if code = "NEWUSER" then some ⟨false, 15, none⟩
  else if code = "FREESHIP" then some ⟨true, 5, none⟩
  else if code = "BULK25" then some ⟨true, 25, some 100⟩
  else none

/-- The tail of `apply_discount`: clamp the discount to the subtotal, then
return `(discounted_amount, discount_applied)`, each quantized to cents. -/
def clampQuant (subtotal d : ℚ) : ℚ × ℚ :=
  let d := if subtotal < d then subtotal else d
  (quantize2 (subtotal - d), quantize2 d)

/-- The guard `if discount_code and discount_code.upper() in discount_codes`
of `apply_discount`: an empty code string is falsy in Python, so it skips the
code branch exactly like an unknown code. -/
def resolveDiscountCode : Option String → Option CodeInfo
  | some c => if c = "" then none else discountCodes (upperStr c)
  | none => none

/-- `PricingCalculator.apply_discount`. -/
def apply_discount (subtotal : ℚ) (code : Option String)
    (pct amt : Option ℚ) : Except String (ℚ × ℚ) :=
  match resolveDiscountCode code with
  | some info =>
    match info.min_amount with
    | some m =>
      if subtotal < m then
        .error "Invalid discount parameters: minimum order amount not met"
      else
        .ok (clampQuant subtotal
          (if info.isPercentage then subtotal * (info.value / 100) else info.value))
    | none =>
      .ok (clampQuant subtotal
        (if info.isPercentage then subtotal * (info.value / 100) else info.value))
  | none =>
    match pct with
    | some p =>
      if 0 ≤ p ∧ p ≤ 100 then .ok (clampQuant subtotal (subtotal * (p / 100)))
      else .error "Invalid discount parameters: percentage out of range"
    | none =>
      match amt with
      | some a =>
        if a < 0 then .error "Invalid discount parameters: negative amount"
        else .ok (clampQuant subtotal a)
      | none => .ok (clampQuant subtotal 0)

/-- `PricingCalculator.calculate_tax`. -/
def calculate_tax (taxable_amount : ℚ) (region : String) (exempt : Bool) : ℚ :=
  if exempt ∨ taxable_amount ≤ 0 then 0
  else quantize2 (taxable_amount * taxRate region)

/-- `PricingCalculator.calculate_shipping`: unknown methods fall back to
`standard`; free shipping above the threshold; otherwise base rate plus
per-kg cost on the weight (clamped below by 0.1 kg), scaled by the distance
multiplier when an address is given. -/
def calculate_shipping (subtotal : ℚ) (method : String) (total_weight : ℚ)
    (addr : Option Address) : ℚ :=
  let cfg := match shippingRates method with
    | some c => c
    | none => ⟨599/100, 5/2, 75⟩
  if cfg.free_shipping_threshold ≤ subtotal then 0
  else
    let w := if total_weight < 1/10 then 1/10 else total_weight
    let total := cfg.base_rate + w * cfg.per_kg
    let total := match addr with
      | some a => total * distanceMultiplier a
      | none => total
    quantize2 total

/-- The dictionary returned by `PricingCalculator.calculate_order_total`. -/
structure PricingBreakdown where
  subtotal : ℚ
  discount_applied : ℚ
  discounted_subtotal : ℚ
  tax_amount : ℚ
  shipping_cost : ℚ
  final_total : ℚ
  tax_region : String
  shipping_method : String
  calc_tax_rate : ℚ
  calc_free_shipping_threshold : ℚ
  calc_total_weight : ℚ
deriving DecidableEq, Repr

/-- `PricingCalculator.calculate_order_total`: subtotal, then discount, then
tax and shipping on the discounted subtotal, then the exact sum.  The
`calculations` sub-dictionary indexes `SHIPPING_RATES[shipping_method]`
directly, which raises `KeyError` for an unknown method. -/
def calculate_order_total (items : List Item) (code : Option String)
    (pct amt : Option ℚ) (region : String) (exempt : Bool)
    (method : String) (weight : ℚ) (addr : Option Address) :
    Except String PricingBreakdown :=
  match calculate_subtotal items with
  | .error e => .error ("Failed to calculate order total: " ++ e)
  | .ok subtotal =>
    match apply_discount subtotal code pct amt with
    | .error e => .error ("Failed to calculate order total: " ++ e)
    | .ok (discounted, dApplied) =>
      let tax := calculate_tax discounted region exempt
      let ship := calculate_shipping discounted method weight addr
      match shippingRates method with
      | none => .error "Failed to calculate order total: KeyError"
      | some cfg =>
        .ok { subtotal := subtotal
              discount_applied := dApplied
              discounted_subtotal := discounted
              tax_amount := tax
              shipping_cost := ship
              final_total := discounted + tax + ship
              tax_region := region
              shipping_method := method
              calc_tax_rate := taxRate region
              calc_free_shipping_threshold := cfg.free_shipping_threshold
              calc_total_weight := weight }

/-! ## StockManager (modules/utils/stock_manager.py)

A product row of the `products` table.  `stock_quantity` is a non-nullable
integer column (default 0), so the Python guard `product.stock_quantity or 0`
is the identity on it; `price` is a nullable float column, modelled as an
optional exact rational. -/

structure Product where
  product_name : String
  price : Option ℚ
  stock_quantity : Int
deriving DecidableEq, Repr

/-- The product table keyed by product id (`db_session.query(Product).filter_by(id=...)`). -/
abbrev DB := String → Option Product

/-- Committing an updated product row. -/
def DB.update (db : DB) (pid : String) (p : Product) : DB :=
  fun id => if id = pid then some p else db id

/-- The stock quantity of a product, 0 when the product is absent. -/
def stockOf (db : DB) (pid : String) : Int :=
  match db pid with
  | some p => p.stock_quantity
  | none => 0

/-- `StockManager.LOW_STOCK_THRESHOLD`. -/
def LOW_STOCK_THRESHOLD : Int := 10

/-- `StockManager.CRITICAL_STOCK_THRESHOLD`. -/
def CRITICAL_STOCK_THRESHOLD : Int := 5

/-- `StockManager._get_stock_level_status`. -/
def stockLevelStatus (stock_quantity : Int) : String :=
  if stock_quantity ≤ 0 then "out_of_stock"
  else if stock_quantity ≤ CRITICAL_STOCK_THRESHOLD then "critical"
  else if stock_quantity ≤ LOW_STOCK_THRESHOLD then "low"
  else "normal"

/-- The dictionary returned by `StockManager.check_stock_availability`;
`none` fields model keys absent in the product-not-found branch. -/
structure StockCheck where
  available : Bool
  reason : String
  current_stock : Int
  requested_quantity : Int
  can_fulfill : Bool
  remaining_after_fulfillment : Option Int
  stock_level : Option String
deriving DecidableEq, Repr

/-- `StockManager.check_stock_availability`: read-only availability query;
soft failure (unavailable) when the product does not exist. -/
def check_stock_availability (db : DB) (pid : String) (q : Int) : StockCheck :=
  match db pid with
  | none =>
    { available := false, reason := "Product not found", current_stock := 0,
      requested_quantity := q, can_fulfill := false,
      remaining_after_fulfillment := none, stock_level := none }
  | some p =>
    let current := p.stock_quantity
    let can := q ≤ current
    { available := can,
      reason := if can then "Sufficient stock" else "Insufficient stock",
      current_stock := current, requested_quantity := q, can_fulfill := can,
      remaining_after_fulfillment := some (if can then current - q else current),
      stock_level := some (stockLevelStatus current) }

/-- The dictionary returned by `reserve_stock` / `release_stock` /
`update_stock_quantity`; `none` fields model keys absent in failure branches. -/
structure StockOpResult where
  success : Bool
  message : String
  previous_stock : Option Int
  current_stock : Int
  stock_level : Option String
deriving DecidableEq, Repr

/-- `StockManager.reserve_stock`: re-check availability, then decrement the
stock and commit.  The post-check re-query of the product mirrors the source;
availability implies it succeeds. -/
def reserve_stock (db : DB) (pid : String) (q : Int) : StockOpResult × DB :=
  let sc := check_stock_availability db pid q
  if !sc.available then
    ({ success := false,
       message := "Cannot reserve units. " ++ sc.reason,
       previous_stock := none, current_stock := sc.current_stock,
       stock_level := none }, db)
  else
    match db pid with
    | none =>
      ({ success := false, message := "Cannot reserve units. Product not found",
         previous_stock := none, current_stock := 0, stock_level := none }, db)
    | some p =>
      let original := p.stock_quantity
      let newStock := original - q
      ({ success := true, message := "Successfully reserved units",
         previous_stock := some original, current_stock := newStock,
         stock_level := some (stockLevelStatus newStock) },
       DB.update db pid { p with stock_quantity := newStock })

/-- `StockManager.release_stock`: increment the stock and commit; fails only
when the product does not exist. -/
def release_stock (db : DB) (pid : String) (q : Int) : StockOpResult × DB :=
  match db pid with
  | none =>
    ({ success := false, message := "Product not found",
       previous_stock := none, current_stock := 0, stock_level := none }, db)
  | some p =>
    let original := p.stock_quantity
    ({ success := true, message := "Successfully released units",
       previous_stock := some original, current_stock := original + q,
       stock_level := some (stockLevelStatus (original + q)) },
     DB.update db pid { p with stock_quantity := original + q })

/-- A `{'product_id': ..., 'quantity': ...}` request line for
`check_multiple_products_stock`. -/
structure LineReq where
  product_id : String
  quantity : Int
deriving DecidableEq, Repr

/-- One entry of the `items` list built by `check_multiple_products_stock`:
the stock check plus the `item_value` key, which is set only for unavailable
items (0.0) or available items of an existing product with truthy price. -/
structure MultiCheckItem where
  check : StockCheck
  item_value : Option ℚ
deriving DecidableEq, Repr

/-- The loop of `check_multiple_products_stock`, accumulating per-item
results, the `all_available` conjunction and the total value of available
items. -/
def multiLoop (db : DB) : List LineReq → List MultiCheckItem × Bool × ℚ
  | [] => ([], true, 0)
  | r :: rest =>
    let sc := check_stock_availability db r.product_id r.quantity
    let (entry, value) :=
      if sc.available then
        match db r.product_id with
        | some p =>
          match p.price with
          | some v =>
            if v = 0 then (MultiCheckItem.mk sc none, 0)
            else (MultiCheckItem.mk sc (some (v * (r.quantity : ℚ))), v * (r.quantity : ℚ))
          | none => (MultiCheckItem.mk sc none, 0)
        | none => (MultiCheckItem.mk sc none, 0)
      else (MultiCheckItem.mk sc (some 0), 0)
    let (restItems, restAvail, restVal) := multiLoop db rest
    (entry :: restItems, sc.available && restAvail, value + restVal)

/-- The dictionary returned by `StockManager.check_multiple_products_stock`. -/
structure MultiCheckResult where
  all_available : Bool
  total_order_value : ℚ
  items : List MultiCheckItem
  unavailable_items : List MultiCheckItem
deriving DecidableEq, Repr

/-- `StockManager.check_multiple_products_stock`. -/
def check_multiple_products_stock (db : DB) (reqs : List LineReq) : MultiCheckResult :=
  let (items, allAvail, total) := multiLoop db reqs
  { all_available := allAvail, total_order_value := total, items := items,
    unavailable_items := items.filter (fun i => !i.check.available) }

/-! ## OrderWorkflowManager (modules/utils/order_workflow.py) -/

/-- The `OrderStatus` enumeration. -/
inductive OrderStatus where
  | pending | confirmed | processing | shipped | delivered
  | cancelled | refunded | failed
deriving DecidableEq, Repr

/-- The `.value` string of an `OrderStatus` member. -/
def OrderStatus.value : OrderStatus → String
  | .pending => "pending"
  | .confirmed => "confirmed"
  | .processing => "processing"
  | .shipped => "shipped"
  | .delivered => "delivered"
  | .cancelled => "cancelled"
  | .refunded => "refunded"
  | .failed => "failed"

/-- The `OrderStatus(string)` constructor; `none` models the `ValueError`
raised on an unknown status string. -/
def OrderStatus.ofString (s : String) : Option OrderStatus :=
  if s = "pending" then some .pending
  else if s = "confirmed" then some .confirmed
  else if s = "processing" then some .processing
  else if s = "shipped" then some .shipped
  else if s = "delivered" then some .delivered
  else if s = "cancelled" then some .cancelled
  else if s = "refunded" then some .refunded
  else if s = "failed" then some .failed
  else none

/-- `OrderWorkflowManager.VALID_TRANSITIONS`, written in the order of the
source's set literals. -/
def VALID_TRANSITIONS : OrderStatus → List OrderStatus
  | .pending => [.confirmed, .cancelled, .failed]
  | .confirmed => [.processing, .cancelled]
  | .processing => [.shipped, .cancelled]
  | .shipped => [.delivered, .cancelled]
  | .delivered => [.refunded]
  | .cancelled => []
  | .refunded => []
  | .failed => [.pending]

/-- `OrderWorkflowManager.can_transition_to`: parse both statuses, then test
membership in the allowed-transitions set; any parse failure yields `false`. -/
def can_transition_to (current target : String) : Bool :=
  match OrderStatus.ofString current, OrderStatus.ofString target with
  | some c, some t => decide (t ∈ VALID_TRANSITIONS c)
  | _, _ => false

/-- `OrderWorkflowManager.get_valid_transitions`. -/
def get_valid_transitions (current : String) : List String :=
  match OrderStatus.ofString current with
  | some c => (VALID_TRANSITIONS c).map OrderStatus.value
  | none => []

/-- An order line item (`order.order_items` entry) as used by the workflow
manager's stock side effects. -/
structure OrderItemRec where
  product_id : String
  quantity : Int
deriving DecidableEq, Repr

/-- An order row as used by `transition_order_status`. -/
structure OrderRec where
  order_status : String
  order_items : List OrderItemRec
deriving Repr

/-- System state seen by the workflow manager: the orders table and the
products table. -/
structure SysState where
  orders : String → Option OrderRec
  products : DB

/-- The reservation loop of `_handle_pre_transition_actions` for a
`pending -> confirmed` transition: reserve each line item in order, stopping
at the first failure (earlier reservations stay committed). -/
def preReserveLoop : DB → List OrderItemRec → Bool × String × DB
  | db, [] => (true, "", db)
  | db, it :: rest =>
    let res := reserve_stock db it.product_id it.quantity
    if res.1.success then preReserveLoop res.2 rest
    else (false, "Cannot confirm order: " ++ res.1.message, res.2)

/-- The release loop of `_handle_pre_transition_actions` for a
`{confirmed, processing} -> cancelled` transition: best-effort release of
every line item (failures do not block). -/
def preReleaseLoop : DB → List OrderItemRec → DB
  | db, [] => db
  | db, it :: rest => preReleaseLoop (release_stock db it.product_id it.quantity).2 rest

/-- `OrderWorkflowManager._handle_pre_transition_actions` (success flag,
failure message, resulting product table). -/
def handle_pre_transition_actions (db : DB) (order : OrderRec)
    (current new_status : String) : Bool × String × DB :=
  if current = OrderStatus.pending.value ∧ new_status = OrderStatus.confirmed.value then
    preReserveLoop db order.order_items
  else if (current = OrderStatus.confirmed.value ∨ current = OrderStatus.processing.value)
      ∧ new_status = OrderStatus.cancelled.value then
    (true, "", preReleaseLoop db order.order_items)
  else
    (true, "", db)

/-- The dictionary returned by `transition_order_status`; `none` fields model
keys absent in the corresponding branches.  The `post_transition_actions`
informational strings (notification stubs and the pricing-snapshot recompute
of `_handle_post_transition_actions`) do not affect order status or stock and
are not modelled. -/
structure TransitionResult where
  success : Bool
  message : String
  current_status : Option String
  valid_transitions : Option (List String)
  previous_status : Option String
deriving DecidableEq, Repr

/-- `OrderWorkflowManager.transition_order_status`: look up the order, reject
invalid transitions (recoverable rejection carrying the current status and the
valid next states), run pre-transition stock side effects, then commit the
status change. -/
def transition_order_status (st : SysState) (oid new_status : String) :
    TransitionResult × SysState :=
  match st.orders oid with
  | none =>
    ({ success := false, message := "Order not found",
       current_status := none, valid_transitions := none,
       previous_status := none }, st)
  | some order =>
    let current := order.order_status
    if !can_transition_to current new_status then
      ({ success := false,
         message := "Invalid status transition from " ++ current ++ " to " ++ new_status,
         current_status := some current,
         valid_transitions := some (get_valid_transitions current),
         previous_status := none }, st)
    else
      let pre := handle_pre_transition_actions st.products order current new_status
      if !pre.1 then
        ({ success := false, message := pre.2.1,
           current_status := none, valid_transitions := none,
           previous_status := none },
         { st with products := pre.2.2 })
      else
        ({ success := true,
           message := "Order status changed from " ++ current ++ " to " ++ new_status,
           current_status := some new_status, valid_transitions := none,
           previous_status := some current },
         { orders := fun id =>
             if id = oid then some { order with order_status := new_status }
             else st.orders id,
           products := pre.2.2 })

/-! ## Cart-to-order conversion (api/v1/views/orders.py, `create_order_from_cart`)

`validate_customer_order_limits` and `validate_inventory_constraints` always
return valid in this deployment: both query `ModelOrder` / `ModelProduct`,
which are `None` because the `models` package does not exist, so the query
raises inside their `try` blocks and the exception is converted to a warning.
They are therefore modelled as pass-throughs.  The order row and order-item
rows created before the reservation loop are tracked by the `orderCreated`
flag; the order's persisted total amount (computed only on full success) is
outside the claims and not modelled. -/

/-- A cart line (`cart.cart_items` entry). -/
structure CartItem where
  product_id : String
  quantity : Int
  unit_price : ℚ
deriving DecidableEq, Repr

/-- The preliminary order total `sum(item.quantity * item.product.price)`;
a missing product raises `AttributeError` and a `None` price raises
`TypeError`, both modelled as errors. -/
def prelimTotal (db : DB) : List CartItem → Except String ℚ
  | [] => .ok 0
  | it :: rest =>
    match db it.product_id with
    | none => .error "AttributeError: cart item has no product"
    | some p =>
      match p.price with
      | none => .error "TypeError: product price is None"
      | some v => (prelimTotal db rest).map (fun t => (it.quantity : ℚ) * v + t)

/-- The error list computed by `BusinessRuleValidator.validate_order_items`
(an empty `product_id` string is falsy in Python). -/
def validate_order_items_errors (items : List CartItem) : List String :=
  if items = [] then ["Order must contain at least one item"]
  else
    (if 100 < items.length then ["Order cannot contain more than 100 items"] else [])
    ++ (items.enum.flatMap (fun (i, it) =>
      (if it.product_id = "" then
        ["Item " ++ toString (i + 1) ++ ": Product ID is required"] else [])
      ++ (if it.quantity ≤ 0 then
        ["Item " ++ toString (i + 1) ++ ": Quantity must be a positive number"] else [])))

/-- The compensating release loop of `create_order_from_cart`'s `except`
block: release every line reserved so far, in order. -/
def releaseAll (db : DB) (reserved : List CartItem) : DB :=
  match reserved with
  | [] => db
  | it :: rest => releaseAll (release_stock db it.product_id it.quantity).2 rest

/-- The order-item creation and stock-reservation loop of
`create_order_from_cart`: reserve each line, tracking reserved lines; on a
failed reservation, release everything reserved so far and re-raise. -/
def reserveLoop : DB → List CartItem → List CartItem → Except (String × DB) DB
  | db, [], _ => .ok db
  | db, it :: rest, reserved =>
    let res := reserve_stock db it.product_id it.quantity
    if res.1.success then reserveLoop res.2 rest (reserved ++ [it])
    else
      .error ("Failed to reserve stock for product " ++ it.product_id ++ ": "
        ++ res.1.message, releaseAll res.2 reserved)

/-- The outcome of `create_order_from_cart`: the raised-or-returned result,
the resulting product table, whether the Order row was created, and whether
the source cart was cleared. -/
structure ConvResult where
  result : Except String Unit
  db : DB
  orderCreated : Bool
  cartCleared : Bool

/-- The per-item part of the insufficient-stock error message.  The stock
check dictionaries carry no `product_id` key, so `item.get('product_id',
'unknown')` always yields the literal string `unknown` and the product lookup
uses that key. -/
def unavailableItemMessage (db : DB) (item : MultiCheckItem) : String :=
  let name := match db "unknown" with
    | some p => p.product_name
    | none => "Unknown Product"
  name ++ ": " ++ item.check.reason ++ " (Available: "
    ++ toString item.check.current_stock ++ ", Requested: "
    ++ toString item.check.requested_quantity ++ ")"

/-- `create_order_from_cart`, after the cart lookup and ownership checks:
empty-cart guard, preliminary total, order-item validation, bulk stock
availability check, order creation, reservation loop with compensating
release, and cart clearing on full success. -/
def create_order_from_cart (db : DB) (items : List CartItem) : ConvResult :=
  if items = [] then
    { result := .error "Cannot create order from empty cart",
      db := db, orderCreated := false, cartCleared := false }
  else
    match prelimTotal db items with
    | .error e => { result := .error e, db := db, orderCreated := false, cartCleared := false }
    | .ok _ =>
      let errs := validate_order_items_errors items
      if errs ≠ [] then
        { result := .error ("Order items validation failed: " ++ String.intercalate "; " errs),
          db := db, orderCreated := false, cartCleared := false }
      else
        let bulk := check_multiple_products_stock db
          (items.map (fun it => LineReq.mk it.product_id it.quantity))
        if !bulk.all_available then
          { result := .error ("Insufficient stock for items: "
              ++ String.intercalate "; " (bulk.unavailable_items.map (unavailableItemMessage db))),
            db := db, orderCreated := false, cartCleared := false }
        else
          match reserveLoop db items [] with
          | .error (msg, db2) =>
            { result := .error msg, db := db2, orderCreated := true, cartCleared := false }
          | .ok db2 =>
            { result := .ok (), db := db2, orderCreated := true, cartCleared := true }

/-! ## Basic lemmas about the stock operations -/

theorem stockOf_update_self (db : DB) (pid : String) (p : Product) :
    stockOf (DB.update db pid p) pid = p.stock_quantity := by
  simp [stockOf, DB.update]

theorem reserve_stock_fail_of_lt (db : DB) (pid : String) (q : Int)
    (h : stockOf db pid < q) :
    (reserve_stock db pid q).1.success = false ∧ (reserve_stock db pid q).2 = db := by
  cases hdb : db pid with
  | none =>
    simp [reserve_stock, check_stock_availability, hdb]
  | some p =>
    have hs : p.stock_quantity < q := by simpa [stockOf, hdb] using h
    simp [reserve_stock, check_stock_availability, hdb, not_le.mpr hs]

theorem reserve_stock_success_eq (db : DB) (pid : String) (q : Int) (p : Product)
    (hdb : db pid = some p) (hq : q ≤ p.stock_quantity) :
    (reserve_stock db pid q).1.success = true ∧
    (reserve_stock db pid q).2
      = DB.update db pid { p with stock_quantity := p.stock_quantity - q } := by
  simp [reserve_stock, check_stock_availability, hdb, hq]

theorem reserve_stock_success_inv (db : DB) (pid : String) (q : Int)
    (h : (reserve_stock db pid q).1.success = true) :
    ∃ p, db pid = some p ∧ q ≤ p.stock_quantity ∧
      (reserve_stock db pid q).2
        = DB.update db pid { p with stock_quantity := p.stock_quantity - q } := by
  cases hdb : db pid with
  | none => simp [reserve_stock, check_stock_availability, hdb] at h
  | some p =>
    by_cases hq : q ≤ p.stock_quantity
    · exact ⟨p, rfl, hq, (reserve_stock_success_eq db pid q p hdb hq).2⟩
    · simp [reserve_stock, check_stock_availability, hdb, hq] at h

theorem release_stock_some_eq (db : DB) (pid : String) (q : Int) (p : Product)
    (hdb : db pid = some p) :
    (release_stock db pid q).1.success = true ∧
    (release_stock db pid q).2
      = DB.update db pid { p with stock_quantity := p.stock_quantity + q } := by
  simp [release_stock, hdb]

theorem reserve_stock_nonneg (db : DB) (pid : String) (q : Int)
    (h : 0 ≤ stockOf db pid) : 0 ≤ stockOf (reserve_stock db pid q).2 pid := by
  cases hdb : db pid with
  | none =>
    simp [reserve_stock, check_stock_availability, hdb, stockOf]
  | some p =>
    by_cases hq : q ≤ p.stock_quantity
    · rw [(reserve_stock_success_eq db pid q p hdb hq).2, stockOf_update_self]
      have hs : 0 ≤ p.stock_quantity := by simpa [stockOf, hdb] using h
      show 0 ≤ p.stock_quantity - q
      omega
    · rw [(reserve_stock_fail_of_lt db pid q (by simp [stockOf, hdb]; omega)).2]
      exact h

/-- Folding a sequence of `reserve_stock` calls against one product. -/
def applyReserves (db : DB) (pid : String) (qs : List Int) : DB :=
  qs.foldl (fun d q => (reserve_stock d pid q).2) db

theorem applyReserves_nonneg (pid : String) (qs : List Int) :
    ∀ db : DB, 0 ≤ stockOf db pid → 0 ≤ stockOf (applyReserves db pid qs) pid := by
  induction qs with
  | nil => intro db h; exact h
  | cons q rest ih =>
    intro db h
    exact ih _ (reserve_stock_nonneg db pid q h)

/-- Claim C1: for any sequence of `reserve_stock` calls against one product,
each with a positive quantity, the product's stock quantity never becomes
negative; and a single reservation whose quantity exceeds the current stock
returns `success = false` and leaves the product table unchanged. -/
theorem C1_reserve_stock_no_oversell (db : DB) (pid : String) (qs : List Int)
    (hpos : ∀ q ∈ qs, 0 < q) (h0 : 0 ≤ stockOf db pid) :
    0 ≤ stockOf (applyReserves db pid qs) pid ∧
    ∀ (db2 : DB) (pid2 : String) (q : Int), stockOf db2 pid2 < q →
      (reserve_stock db2 pid2 q).1.success = false ∧ (reserve_stock db2 pid2 q).2 = db2 := by
  refine ⟨applyReserves_nonneg pid qs db h0, ?_⟩
  intro db2 pid2 q h
  exact reserve_stock_fail_of_lt db2 pid2 q h

/-- Witness for C1 at a concrete product table: stock 5, reservations of 5
then 1; the invariant holds and the oversized reservation fails in place. -/
theorem C1_reserve_stock_no_oversell_witness :
    (∀ q ∈ [(5 : Int), 1], 0 < q) ∧
    0 ≤ stockOf (fun pid => if pid = "p1" then some ⟨"Widget", some 10, 5⟩ else none) "p1" ∧
    (0 ≤ stockOf (applyReserves
        (fun pid => if pid = "p1" then some ⟨"Widget", some 10, 5⟩ else none) "p1" [5, 1]) "p1" ∧
    ∀ (db2 : DB) (pid2 : String) (q : Int), stockOf db2 pid2 < q →
      (reserve_stock db2 pid2 q).1.success = false ∧ (reserve_stock db2 pid2 q).2 = db2) :=
  ⟨by decide, by norm_num [stockOf],
    C1_reserve_stock_no_oversell _ "p1" [5, 1] (by decide) (by norm_num [stockOf])⟩

/-- Claim C6: a successful `reserve_stock(p, q)` followed by
`release_stock(p, q)` restores the product's stock quantity to its
pre-reservation value. -/
theorem C6_reserve_release_inverse (db : DB) (pid : String) (q : Int) (p : Product)
    (hdb : db pid = some p) (hq : q ≤ p.stock_quantity) :
    (reserve_stock db pid q).1.success = true ∧
    (release_stock (reserve_stock db pid q).2 pid q).1.success = true ∧
    stockOf (release_stock (reserve_stock db pid q).2 pid q).2 pid = stockOf db pid := by
  obtain ⟨hsucc, heq⟩ := reserve_stock_success_eq db pid q p hdb hq
  refine ⟨hsucc, ?_, ?_⟩
  · rw [heq]
    exact (release_stock_some_eq _ pid q { p with stock_quantity := p.stock_quantity - q }
      (by simp [DB.update])).1
  · rw [heq, (release_stock_some_eq _ pid q { p with stock_quantity := p.stock_quantity - q }
      (by simp [DB.update])).2, stockOf_update_self]
    simp [stockOf, hdb]

/-- Witness for C6 at a concrete product table (stock 5, quantity 3). -/
theorem C6_reserve_release_inverse_witness :
    (fun pid => if pid = "p1" then some (Product.mk "Widget" (some 10) 5) else none) "p1"
        = some (Product.mk "Widget" (some 10) 5) ∧
    (3 : Int) ≤ (Product.mk "Widget" (some 10) 5).stock_quantity ∧
    ((reserve_stock (fun pid => if pid = "p1" then some (Product.mk "Widget" (some 10) 5) else none)
        "p1" 3).1.success = true ∧
      (release_stock (reserve_stock
          (fun pid => if pid = "p1" then some (Product.mk "Widget" (some 10) 5) else none)
          "p1" 3).2 "p1" 3).1.success = true ∧
      stockOf (release_stock (reserve_stock
          (fun pid => if pid = "p1" then some (Product.mk "Widget" (some 10) 5) else none)
          "p1" 3).2 "p1" 3).2 "p1"
        = stockOf (fun pid => if pid = "p1" then some (Product.mk "Widget" (some 10) 5) else none) "p1") :=
  ⟨by norm_num, by norm_num,
    C6_reserve_release_inverse _ "p1" 3 (Product.mk "Widget" (some 10) 5) (by norm_num) (by norm_num)⟩

/-- Claim C9: `reserve_stock` does not enforce a positive quantity: for an
existing product with nonnegative stock `s` and a negative quantity `q`, the
availability check `s >= q` passes, the call succeeds, and the stock becomes
`s - q > s`, i.e. the reservation increases stock. -/
theorem C9_reserve_stock_negative_quantity (db : DB) (pid : String) (q : Int) (p : Product)
    (hdb : db pid = some p) (h0 : 0 ≤ p.stock_quantity) (hq : q < 0) :
    (check_stock_availability db pid q).can_fulfill = true ∧
    (reserve_stock db pid q).1.success = true ∧
    stockOf (reserve_stock db pid q).2 pid = p.stock_quantity - q ∧
    p.stock_quantity < p.stock_quantity - q := by
  have hle : q ≤ p.stock_quantity := by omega
  obtain ⟨hsucc, heq⟩ := reserve_stock_success_eq db pid q p hdb hle
  refine ⟨by simp [check_stock_availability, hdb, hle], hsucc, ?_, by omega⟩
  rw [heq, stockOf_update_self]

/-- Witness for C9 at a concrete product table (stock 5, quantity -2). -/
theorem C9_reserve_stock_negative_quantity_witness :
    (fun pid => if pid = "p1" then some (Product.mk "Widget" (some 10) 5) else none) "p1"
        = some (Product.mk "Widget" (some 10) 5) ∧
    (0 : Int) ≤ (Product.mk "Widget" (some 10) 5).stock_quantity ∧
    (-2 : Int) < 0 ∧
    ((check_stock_availability
        (fun pid => if pid = "p1" then some (Product.mk "Widget" (some 10) 5) else none)
        "p1" (-2)).can_fulfill = true ∧
      (reserve_stock (fun pid => if pid = "p1" then some (Product.mk "Widget" (some 10) 5) else none)
        "p1" (-2)).1.success = true ∧
      stockOf (reserve_stock
          (fun pid => if pid = "p1" then some (Product.mk "Widget" (some 10) 5) else none)
          "p1" (-2)).2 "p1" = (Product.mk "Widget" (some 10) 5).stock_quantity - (-2) ∧
      (Product.mk "Widget" (some 10) 5).stock_quantity
        < (Product.mk "Widget" (some 10) 5).stock_quantity - (-2)) :=
  ⟨by norm_num, by norm_num, by norm_num,
    C9_reserve_stock_negative_quantity _ "p1" (-2) (Product.mk "Widget" (some 10) 5)
      (by norm_num) (by norm_num) (by norm_num)⟩

/-! ## Basic lemmas about half-up rounding to cents -/

theorem quantize2_nonneg (x : ℚ) (h : 0 ≤ x) : 0 ≤ quantize2 x := by
  rw [quantize2, if_pos h]
  apply div_nonneg _ (by norm_num)
  exact_mod_cast Int.floor_nonneg.mpr (by linarith)

theorem quantize2_mono_of_nonneg (a b : ℚ) (ha : 0 ≤ a) (hab : a ≤ b) :
    quantize2 a ≤ quantize2 b := by
  rw [quantize2, if_pos ha, quantize2, if_pos (le_trans ha hab)]
  have h2 : ((⌊a * 100 + 1/2⌋ : ℤ) : ℚ) ≤ ((⌊b * 100 + 1/2⌋ : ℤ) : ℚ) := by
    exact_mod_cast Int.floor_le_floor (by linarith)
  linarith

theorem quantize2_intCast_div (n : ℤ) : quantize2 ((n : ℚ) / 100) = (n : ℚ) / 100 := by
  have hhalf : ⌊(1 : ℚ)/2⌋ = 0 := by norm_num
  rcases le_or_lt 0 (n : ℚ) with hn | hn
  · rw [quantize2, if_pos (by positivity)]
    have harg : (n : ℚ)/100 * 100 + 1/2 = (n : ℚ) + 1/2 := by ring
    rw [harg, Int.floor_int_add, hhalf]
    norm_num
  · rw [quantize2, if_neg (by intro hc; nlinarith)]
    have harg : -((n : ℚ)/100) * 100 + 1/2 = ((-n : ℤ) : ℚ) + 1/2 := by push_cast; ring
    rw [harg, Int.floor_int_add, hhalf]
    push_cast
    ring

theorem quantize2_bounds (x : ℚ) (h : 0 ≤ x) :
    x - 1/200 ≤ quantize2 x ∧ quantize2 x ≤ x + 1/200 := by
  rw [quantize2, if_pos h]
  have hlo : (x * 100 + 1/2) - 1 < ((⌊x * 100 + 1/2⌋ : ℤ) : ℚ) := Int.sub_one_lt_floor _
  have hhi : ((⌊x * 100 + 1/2⌋ : ℤ) : ℚ) ≤ x * 100 + 1/2 := Int.floor_le _
  constructor <;> linarith

/-! ## Lemmas about `apply_discount` -/

theorem discountCodes_value_nonneg (s : String) (info : CodeInfo)
    (h : discountCodes s = some info) : 0 ≤ info.value := by
  rw [discountCodes] at h
  split_ifs at h <;> simp_all <;> norm_num [← h]

/-- Every `Except.ok` result of `apply_discount` is `clampQuant` applied to a
nonnegative raw discount (for a nonnegative subtotal). -/
theorem apply_discount_ok_inv (S : ℚ) (code : Option String) (pct amt : Option ℚ)
    (out : ℚ × ℚ) (hS : 0 ≤ S)
    (h : apply_discount S code pct amt = .ok out) :
    ∃ d, 0 ≤ d ∧ out = clampQuant S d := by
  unfold apply_discount at h
  split at h
  case h_1 info heq =>
    have hcode : ∃ c, discountCodes (upperStr c) = some info := by
      rcases code with _ | c
      · simp [resolveDiscountCode] at heq
      · rw [resolveDiscountCode] at heq
        split_ifs at heq with hce
        exact ⟨c, heq⟩
    obtain ⟨c, hc⟩ := hcode
    have hv : 0 ≤ info.value := discountCodes_value_nonneg _ _ hc
    have hd : 0 ≤ if info.isPercentage then S * (info.value / 100) else info.value := by
      split
      · exact mul_nonneg hS (div_nonneg hv (by norm_num))
      · exact hv
    split at h
    · split at h
      · simp at h
      · injection h with h
        exact ⟨_, hd, h.symm⟩
    · injection h with h
      exact ⟨_, hd, h.symm⟩
  case h_2 heq =>
    split at h
    case h_1 p =>
      split at h
      case isTrue hp =>
        injection h with h
        exact ⟨_, mul_nonneg hS (div_nonneg hp.1 (by norm_num)), h.symm⟩
      case isFalse hp => simp at h
    case h_2 =>
      split at h
      case h_1 a =>
        split at h
        case isTrue ha => simp at h
        case isFalse ha =>
          injection h with h
          exact ⟨_, not_lt.mp ha, h.symm⟩
      case h_2 =>
        injection h with h
        exact ⟨_, le_refl 0, h.symm⟩

theorem clampQuant_bounds (S d : ℚ) (n : ℤ) (hS : S = (n : ℚ) / 100)
    (h0 : 0 ≤ S) (hd : 0 ≤ d) :
    0 ≤ (clampQuant S d).2 ∧ (clampQuant S d).2 ≤ S ∧
    S - (clampQuant S d).2 - 1/100 ≤ (clampQuant S d).1 ∧
    (clampQuant S d).1 ≤ S - (clampQuant S d).2 + 1/100 := by
  rw [clampQuant]
  set dc := if S < d then S else d with hdc
  have hdc0 : 0 ≤ dc := by rw [hdc]; split <;> assumption
  have hdcS : dc ≤ S := by
    rw [hdc]; split
    · exact le_refl S
    · exact le_of_not_lt (by assumption)
  have hSq : quantize2 S = S := by rw [hS]; exact quantize2_intCast_div n
  have hAle : (clampQuant S d).2 ≤ S := by
    rw [clampQuant]; rw [← hdc]
    calc quantize2 dc ≤ quantize2 S := quantize2_mono_of_nonneg dc S hdc0 hdcS
    _ = S := hSq
  obtain ⟨hb1, hb2⟩ := quantize2_bounds dc hdc0
  obtain ⟨hb3, hb4⟩ := quantize2_bounds (S - dc) (by linarith)
  refine ⟨quantize2_nonneg dc hdc0, by simpa [clampQuant, ← hdc] using hAle, ?_, ?_⟩ <;>
    simp only <;> linarith

/-- Concrete evaluation of `apply_discount` at subtotal 20.05 with the 10%
code WELCOME10: the raw discount 2.005 lands on a half-cent, so the two
rounded outputs are 18.05 and 2.01. -/
theorem apply_discount_concrete_2005 :
    apply_discount (2005/100) (some "WELCOME10") none none = .ok (1805/100, 201/100) := by
  have h0 : resolveDiscountCode (some "WELCOME10") = some ⟨true, 10, none⟩ := rfl
  simp only [apply_discount, h0]
  norm_num [clampQuant, quantize2]

/-- Claim C7 (amended): for a nonnegative cent-valued subtotal `S` and any
discount inputs accepted by `apply_discount`, `0 ≤ discount_applied ≤ S`, and
the returned discounted amount is within one cent of `S - discount_applied`
(the two are rounded independently, so exact equality can fail by one cent
when the raw discount lies on a half-cent). -/
theorem C7_apply_discount_clamp (S : ℚ) (n : ℤ) (code : Option String)
    (pct amt : Option ℚ) (disc dApp : ℚ)
    (hS : S = (n : ℚ) / 100) (h0 : 0 ≤ S)
    (h : apply_discount S code pct amt = .ok (disc, dApp)) :
    0 ≤ dApp ∧ dApp ≤ S ∧ S - dApp - 1/100 ≤ disc ∧ disc ≤ S - dApp + 1/100 := by
  obtain ⟨d, hd0, hout⟩ := apply_discount_ok_inv S code pct amt (disc, dApp) h0 h
  have hb := clampQuant_bounds S d n hS h0 hd0
  have h1 : disc = (clampQuant S d).1 := by rw [← hout]
  have h2 : dApp = (clampQuant S d).2 := by rw [← hout]
  rw [h1, h2]
  exact hb

/-- Witness for C7 (amended) at subtotal 20.05 with code WELCOME10. -/
theorem C7_apply_discount_clamp_witness :
    (2005 / 100 : ℚ) = ((2005 : ℤ) : ℚ) / 100 ∧ (0 : ℚ) ≤ 2005 / 100 ∧
    apply_discount (2005/100) (some "WELCOME10") none none = .ok (1805/100, 201/100) ∧
    ((0 : ℚ) ≤ 201/100 ∧ (201/100 : ℚ) ≤ 2005/100 ∧
      (2005/100 : ℚ) - 201/100 - 1/100 ≤ 1805/100 ∧
      (1805/100 : ℚ) ≤ 2005/100 - 201/100 + 1/100) :=
  ⟨by norm_num, by norm_num, apply_discount_concrete_2005,
    C7_apply_discount_clamp (2005/100) 2005 (some "WELCOME10") none none (1805/100) (201/100)
      (by norm_num) (by norm_num) apply_discount_concrete_2005⟩

/-- Claim C7 fails as stated: at subtotal 20.05 with the 10% code WELCOME10,
the returned discounted amount is 18.05 while `S - discount_applied` is
20.05 - 2.01 = 18.04. -/
theorem C7_discount_exact_sub_counterexample :
    apply_discount (2005/100) (some "WELCOME10") none none = .ok (1805/100, 201/100) ∧
    (1805/100 : ℚ) ≠ 2005/100 - 201/100 :=
  ⟨apply_discount_concrete_2005, by norm_num⟩

/-- Claim C10: an unknown (or unmatched) discount code with no explicit
percentage or amount does not fail: it yields a zero discount and returns the
subtotal unchanged; and code lookup is case-insensitive (lowercase and
uppercase spellings of a known code behave identically). -/
theorem C10_unknown_code_and_case_insensitive :
    (∀ (n : ℕ) (c : String), discountCodes (upperStr c) = none →
      apply_discount ((n : ℚ) / 100) (some c) none none = .ok ((n : ℚ) / 100, 0)) ∧
    (∀ S : ℚ, apply_discount S (some "welcome10") none none
      = apply_discount S (some "WELCOME10") none none) := by
  constructor
  · intro n c hc
    have h0 : (0 : ℚ) ≤ (n : ℚ) / 100 := by positivity
    have hq0 : quantize2 0 = 0 := by
      simpa using quantize2_intCast_div 0
    have hqS : quantize2 ((n : ℚ) / 100) = (n : ℚ) / 100 := by
      simpa using quantize2_intCast_div (n : ℤ)
    have hres : resolveDiscountCode (some c) = none := by
      rw [resolveDiscountCode]
      split_ifs with hce
      · rfl
      · exact hc
    rw [apply_discount, hres]
    simp [clampQuant, not_lt.mpr h0, hq0, hqS]
  · intro S
    rfl

/-- Witness for C10 at the unknown code BOGUS and subtotal 5.00. -/
theorem C10_unknown_code_witness :
    discountCodes (upperStr "BOGUS") = none ∧
    apply_discount (((500 : ℕ) : ℚ) / 100) (some "BOGUS") none none
      = .ok (((500 : ℕ) : ℚ) / 100, 0) ∧
    apply_discount 7 (some "welcome10") none none
      = apply_discount 7 (some "WELCOME10") none none :=
  ⟨rfl, C10_unknown_code_and_case_insensitive.1 500 "BOGUS" rfl,
    C10_unknown_code_and_case_insensitive.2 7⟩

/-! ## Concrete evaluations of the pricing pipeline -/

theorem calculate_subtotal_two_at_ten : calculate_subtotal [⟨2, 10⟩] = .ok 20 := by
  norm_num [calculate_subtotal, subtotalLoop, Except.map, quantize2]

theorem calculate_subtotal_one_at_ten : calculate_subtotal [⟨1, 10⟩] = .ok 10 := by
  norm_num [calculate_subtotal, subtotalLoop, Except.map, quantize2]

theorem apply_discount_twenty_welcome :
    apply_discount 20 (some "WELCOME10") none none = .ok (18, 2) := by
  have h0 : resolveDiscountCode (some "WELCOME10") = some ⟨true, 10, none⟩ := rfl
  simp only [apply_discount, h0]
  norm_num [clampQuant, quantize2]

theorem apply_discount_ten_none :
    apply_discount 10 none none none = .ok (10, 0) := by
  norm_num [apply_discount, resolveDiscountCode, clampQuant, quantize2]

theorem calculate_tax_default_18 : calculate_tax 18 "DEFAULT" false = 126/100 := by
  have ht : taxRate "DEFAULT" = 7/100 := rfl
  rw [calculate_tax, if_neg (by norm_num), ht]
  norm_num [quantize2]

theorem calculate_shipping_standard_1kg (S : ℚ) (h : S < 75) :
    calculate_shipping S "standard" 1 none = 849/100 := by
  have hs : shippingRates "standard" = some ⟨599/100, 5/2, 75⟩ := rfl
  rw [calculate_shipping, hs]
  rw [if_neg (not_le.mpr h)]
  norm_num [quantize2]

/-- Shared evaluation of `calculate_order_total` on the spec's scenario B
input (2 units at 10.00, code WELCOME10, default tax region, standard
shipping, default weight 1.0 kg). -/
theorem calculate_order_total_scenarioB :
    calculate_order_total [⟨2, 10⟩] (some "WELCOME10") none none "DEFAULT" false "standard" 1 none
      = .ok ⟨20, 2, 18, 126/100, 849/100, 2775/100, "DEFAULT", "standard", 7/100, 75, 1⟩ := by
  have hs : shippingRates "standard" = some ⟨599/100, 5/2, 75⟩ := rfl
  have hship : calculate_shipping 18 "standard" 1 none = 849/100 :=
    calculate_shipping_standard_1kg 18 (by norm_num)
  simp only [calculate_order_total, calculate_subtotal_two_at_ten,
    apply_discount_twenty_welcome, calculate_tax_default_18, hship, hs]
  have ht : taxRate "DEFAULT" = 7/100 := rfl
  rw [ht]
  norm_num

/-- Shared evaluation of `calculate_order_total` on a tax-exempt one-line
order (1 unit at 10.00, no discount). -/
theorem calculate_order_total_taxExempt :
    calculate_order_total [⟨1, 10⟩] none none none "DEFAULT" true "standard" 1 none
      = .ok ⟨10, 0, 10, 0, 849/100, 1849/100, "DEFAULT", "standard", 7/100, 75, 1⟩ := by
  have hs : shippingRates "standard" = some ⟨599/100, 5/2, 75⟩ := rfl
  have hship : calculate_shipping 10 "standard" 1 none = 849/100 :=
    calculate_shipping_standard_1kg 10 (by norm_num)
  have htax : calculate_tax 10 "DEFAULT" true = 0 := by
    rw [calculate_tax, if_pos]
    simp
  simp only [calculate_order_total, calculate_subtotal_one_at_ten,
    apply_discount_ten_none, htax, hship, hs]
  have ht : taxRate "DEFAULT" = 7/100 := rfl
  rw [ht]
  norm_num

/-- Claim C3 fails as stated: on the scenario input (2 units at 10.00, 10%
code, 7% region, standard shipping, default weight 1.0 kg) the shipping cost
is 8.49 dollars (base 5.99 plus 1 kg at 2.50), not the flat 5.99 of the
claim, and the final total is 27.75, not 25.25. -/
theorem C3_order_total_scenario_counterexample :
    (calculate_order_total [⟨2, 10⟩] (some "WELCOME10") none none "DEFAULT" false "standard" 1 none).map
      (fun r => (r.shipping_cost, r.final_total)) ≠ .ok (599/100, 2525/100) := by
  rw [calculate_order_total_scenarioB]
  simp only [Except.map]
  intro h
  injection h with h
  have h1 := congrArg Prod.fst h
  norm_num at h1

/-- Claim C3 (amended): on the scenario input, with the default total weight
of 1.0 kg, `calculate_order_total` returns subtotal 20.00, discount 2.00,
discounted subtotal 18.00, tax 1.26, shipping cost 8.49 and final total
27.75. -/
theorem C3_order_total_scenario :
    calculate_order_total [⟨2, 10⟩] (some "WELCOME10") none none "DEFAULT" false "standard" 1 none
      = .ok ⟨20, 2, 18, 126/100, 849/100, 2775/100, "DEFAULT", "standard", 7/100, 75, 1⟩ :=
  calculate_order_total_scenarioB

/-- Claim C5: `calculate_order_total` is deterministic (it is a pure
function of its inputs), and every successful result satisfies
`final_total = discounted_subtotal + tax_amount + shipping_cost` exactly. -/
theorem C5_order_total_deterministic_additive :
    (∀ (items : List Item) (code : Option String) (pct amt : Option ℚ)
        (region : String) (exempt : Bool) (method : String) (weight : ℚ)
        (addr : Option Address),
      calculate_order_total items code pct amt region exempt method weight addr
        = calculate_order_total items code pct amt region exempt method weight addr) ∧
    (∀ (items : List Item) (code : Option String) (pct amt : Option ℚ)
        (region : String) (exempt : Bool) (method : String) (weight : ℚ)
        (addr : Option Address) (r : PricingBreakdown),
      calculate_order_total items code pct amt region exempt method weight addr = .ok r →
      r.final_total = r.discounted_subtotal + r.tax_amount + r.shipping_cost) := by
  refine ⟨fun _ _ _ _ _ _ _ _ _ => rfl, ?_⟩
  intro items code pct amt region exempt method weight addr r h
  unfold calculate_order_total at h
  split at h
  · simp at h
  · split at h
    · simp at h
    · split at h
      · simp at h
      · injection h with h
        rw [← h]

/-- Witness for C5 at the tax-exempt concrete order. -/
theorem C5_order_total_deterministic_additive_witness :
    calculate_order_total [⟨1, 10⟩] none none none "DEFAULT" true "standard" 1 none
      = .ok ⟨10, 0, 10, 0, 849/100, 1849/100, "DEFAULT", "standard", 7/100, 75, 1⟩ ∧
    (PricingBreakdown.mk 10 0 10 0 (849/100) (1849/100) "DEFAULT" "standard" (7/100) 75 1).final_total
      = (PricingBreakdown.mk 10 0 10 0 (849/100) (1849/100) "DEFAULT" "standard" (7/100) 75 1).discounted_subtotal
        + (PricingBreakdown.mk 10 0 10 0 (849/100) (1849/100) "DEFAULT" "standard" (7/100) 75 1).tax_amount
        + (PricingBreakdown.mk 10 0 10 0 (849/100) (1849/100) "DEFAULT" "standard" (7/100) 75 1).shipping_cost :=
  ⟨calculate_order_total_taxExempt,
    C5_order_total_deterministic_additive.2 [⟨1, 10⟩] none none none "DEFAULT" true "standard" 1 none
      _ calculate_order_total_taxExempt⟩

/-! ## The order-status state machine -/

theorem OrderStatus.ofString_value (s : OrderStatus) :
    OrderStatus.ofString s.value = some s := by
  cases s <;> rfl

/-- Claim C4: for every current order status and every target status outside
its allowed-transitions set, `transition_order_status` returns an
unsuccessful result carrying the current status and the list of valid next
states, and the system state (in particular the order's status) is
unchanged. -/
theorem C4_invalid_transition_rejected (st : SysState) (oid : String)
    (order : OrderRec) (cur tgt : OrderStatus)
    (hord : st.orders oid = some order)
    (hcur : order.order_status = cur.value)
    (hnot : tgt ∉ VALID_TRANSITIONS cur) :
    (transition_order_status st oid tgt.value).1.success = false ∧
    (transition_order_status st oid tgt.value).1.current_status = some cur.value ∧
    (transition_order_status st oid tgt.value).1.valid_transitions
      = some ((VALID_TRANSITIONS cur).map OrderStatus.value) ∧
    (transition_order_status st oid tgt.value).2 = st := by
  have hcan : can_transition_to cur.value tgt.value = false := by
    rw [can_transition_to, OrderStatus.ofString_value, OrderStatus.ofString_value]
    simpa using hnot
  have hget : get_valid_transitions cur.value
      = (VALID_TRANSITIONS cur).map OrderStatus.value := by
    rw [get_valid_transitions, OrderStatus.ofString_value]
  simp only [transition_order_status, hord, hcur]
  simp [hcan, hget]

/-- Witness for C4: a pending order cannot jump directly to shipped; the
rejection reports the pending status with its three valid successors and
leaves the state untouched. -/
theorem C4_invalid_transition_rejected_witness :
    (SysState.mk (fun oid => if oid = "o1" then some ⟨"pending", []⟩ else none)
        (fun _ => none)).orders "o1" = some ⟨"pending", []⟩ ∧
    (OrderRec.mk "pending" []).order_status = OrderStatus.pending.value ∧
    OrderStatus.shipped ∉ VALID_TRANSITIONS OrderStatus.pending ∧
    ((transition_order_status
        (SysState.mk (fun oid => if oid = "o1" then some ⟨"pending", []⟩ else none)
          (fun _ => none)) "o1" OrderStatus.shipped.value).1.success = false ∧
      (transition_order_status
        (SysState.mk (fun oid => if oid = "o1" then some ⟨"pending", []⟩ else none)
          (fun _ => none)) "o1" OrderStatus.shipped.value).1.current_status
        = some OrderStatus.pending.value ∧
      (transition_order_status
        (SysState.mk (fun oid => if oid = "o1" then some ⟨"pending", []⟩ else none)
          (fun _ => none)) "o1" OrderStatus.shipped.value).1.valid_transitions
        = some ((VALID_TRANSITIONS OrderStatus.pending).map OrderStatus.value) ∧
      (transition_order_status
        (SysState.mk (fun oid => if oid = "o1" then some ⟨"pending", []⟩ else none)
          (fun _ => none)) "o1" OrderStatus.shipped.value).2
        = SysState.mk (fun oid => if oid = "o1" then some ⟨"pending", []⟩ else none)
          (fun _ => none)) :=
  ⟨by simp, rfl, by decide,
    C4_invalid_transition_rejected _ "o1" ⟨"pending", []⟩ OrderStatus.pending
      OrderStatus.shipped (by simp) rfl (by decide)⟩

/-! ## Stock accounting for the conversion loop -/

theorem reserve_stock_not_success_eq (db : DB) (pid : String) (q : Int)
    (h : ¬ (reserve_stock db pid q).1.success = true) :
    (reserve_stock db pid q).2 = db := by
  cases hdb : db pid with
  | none => simp [reserve_stock, check_stock_availability, hdb]
  | some p =>
    by_cases hq : q ≤ p.stock_quantity
    · exact absurd (reserve_stock_success_eq db pid q p hdb hq).1 h
    · exact (reserve_stock_fail_of_lt db pid q (by simp [stockOf, hdb]; omega)).2

theorem reserve_stock_isSome (db : DB) (pid : String) (q : Int) (pid2 : String) :
    (((reserve_stock db pid q).2) pid2).isSome = (db pid2).isSome := by
  by_cases hs : (reserve_stock db pid q).1.success = true
  · obtain ⟨p, hdb, _, heq⟩ := reserve_stock_success_inv db pid q hs
    rw [heq]
    by_cases h2 : pid2 = pid <;> simp [DB.update, h2, hdb]
  · rw [reserve_stock_not_success_eq db pid q hs]

theorem release_stock_isSome (db : DB) (pid : String) (q : Int) (pid2 : String) :
    (((release_stock db pid q).2) pid2).isSome = (db pid2).isSome := by
  cases hdb : db pid with
  | none => simp [release_stock, hdb]
  | some p =>
    rw [(release_stock_some_eq db pid q p hdb).2]
    by_cases h2 : pid2 = pid <;> simp [DB.update, h2, hdb]

theorem release_stock_stockOf (db : DB) (pid : String) (q : Int) (pid2 : String) :
    stockOf ((release_stock db pid q).2) pid2
      = stockOf db pid2 + (if pid2 = pid ∧ (db pid).isSome = true then q else 0) := by
  cases hdb : db pid with
  | none => simp [release_stock, hdb]
  | some p =>
    rw [(release_stock_some_eq db pid q p hdb).2]
    by_cases h2 : pid2 = pid
    · subst h2
      rw [stockOf_update_self]
      simp [stockOf, hdb]
    · simp [stockOf, DB.update, h2, hdb]

/-- The total quantity reserved for a given product by a list of tracked
cart lines. -/
def reservedSum (reserved : List CartItem) (pid : String) : Int :=
  (reserved.map (fun it => if it.product_id = pid then it.quantity else 0)).sum

theorem reservedSum_cons (it : CartItem) (rest : List CartItem) (pid : String) :
    reservedSum (it :: rest) pid
      = (if it.product_id = pid then it.quantity else 0) + reservedSum rest pid := by
  simp [reservedSum]

theorem reservedSum_append (a b : List CartItem) (pid : String) :
    reservedSum (a ++ b) pid = reservedSum a pid + reservedSum b pid := by
  simp [reservedSum]

theorem releaseAll_stockOf :
    ∀ (reserved : List CartItem) (db : DB) (pid : String),
    (∀ it ∈ reserved, (db it.product_id).isSome = true) →
    stockOf (releaseAll db reserved) pid = stockOf db pid + reservedSum reserved pid := by
  intro reserved
  induction reserved with
  | nil => intro db pid _; simp [releaseAll, reservedSum]
  | cons it rest ih =>
    intro db pid hex
    have hs : (db it.product_id).isSome = true := hex it (by simp)
    have hex2 : ∀ x ∈ rest,
        (((release_stock db it.product_id it.quantity).2) x.product_id).isSome = true := by
      intro x hx
      rw [release_stock_isSome]
      exact hex x (by simp [hx])
    rw [releaseAll, ih _ pid hex2, release_stock_stockOf, reservedSum_cons]
    by_cases h2 : it.product_id = pid
    · rw [h2] at hs ⊢
      simp only [hs, and_true, if_pos rfl]
      omega
    · have h2' : ¬ (pid = it.product_id ∧ (db it.product_id).isSome = true) :=
        fun hc => h2 hc.1.symm
      rw [if_neg h2', if_neg h2]
      omega

theorem reserveLoop_error_restores :
    ∀ (items : List CartItem) (db : DB) (reserved : List CartItem) (msg : String)
      (db2 db0 : DB),
    (∀ it ∈ reserved, (db it.product_id).isSome = true) →
    (∀ pid, stockOf db pid + reservedSum reserved pid = stockOf db0 pid) →
    reserveLoop db items reserved = .error (msg, db2) →
    ∀ pid, stockOf db2 pid = stockOf db0 pid := by
  intro items
  induction items with
  | nil =>
    intro db reserved msg db2 db0 _ _ h
    simp [reserveLoop] at h
  | cons it rest ih =>
    intro db reserved msg db2 db0 hex hsum h
    rw [reserveLoop] at h
    by_cases hs : (reserve_stock db it.product_id it.quantity).1.success = true
    · rw [if_pos hs] at h
      obtain ⟨p, hdb, hq, heq⟩ := reserve_stock_success_inv db it.product_id it.quantity hs
      refine ih _ _ msg db2 db0 ?_ ?_ h
      · intro x hx
        rw [reserve_stock_isSome]
        rcases List.mem_append.mp hx with hx | hx
        · exact hex x hx
        · have hxit : x = it := by simpa using hx
          subst hxit
          simp [hdb]
      · intro pid
        rw [heq, reservedSum_append]
        have hsum2 := hsum pid
        by_cases h2 : pid = it.product_id
        · subst h2
          rw [stockOf_update_self]
          have hstock : stockOf db it.product_id = p.stock_quantity := by
            simp [stockOf, hdb]
          have hrs : reservedSum [it] it.product_id = it.quantity := by
            simp [reservedSum]
          show p.stock_quantity - it.quantity
            + (reservedSum reserved it.product_id + reservedSum [it] it.product_id)
            = stockOf db0 it.product_id
          omega
        · have hupd : stockOf (DB.update db it.product_id
              { p with stock_quantity := p.stock_quantity - it.quantity }) pid
              = stockOf db pid := by
            simp [stockOf, DB.update, h2]
          rw [hupd]
          have hne : it.product_id ≠ pid := fun hc => h2 hc.symm
          have hrs : reservedSum [it] pid = 0 := by
            simp [reservedSum, hne]
          omega
    · rw [if_neg hs] at h
      injection h with h
      obtain ⟨hm, hd2⟩ := Prod.mk.inj h
      subst hd2
      intro pid
      rw [reserve_stock_not_success_eq db it.product_id it.quantity hs,
        releaseAll_stockOf reserved db pid hex]
      exact hsum pid

/-- Claim C2: if a stock reservation fails partway through the conversion's
reservation loop, the conversion returns exactly that failure and the
compensating releases restore every product's stock quantity to its value
before the operation. -/
theorem C2_conversion_compensates_on_partial_failure (db : DB) (items : List CartItem)
    (msg : String) (db2 : DB) (t : ℚ)
    (hne : items ≠ [])
    (hpre : prelimTotal db items = .ok t)
    (hval : validate_order_items_errors items = [])
    (hbulk : (check_multiple_products_stock db
      (items.map (fun it => LineReq.mk it.product_id it.quantity))).all_available = true)
    (hloop : reserveLoop db items [] = .error (msg, db2)) :
    create_order_from_cart db items
      = ConvResult.mk (.error msg) db2 true false ∧
    ∀ pid, stockOf db2 pid = stockOf db pid := by
  constructor
  · simp [create_order_from_cart, hne, hpre, hval, hbulk, hloop]
  · exact fun pid => reserveLoop_error_restores items db [] msg db2 db
      (by simp) (fun pid2 => by simp [reservedSum]) hloop pid

/-- Product table for the concrete compensation scenario: one product with
stock 5. -/
def compDB : DB :=
  fun pid => if pid = "p1" then some (Product.mk "Widget" (some 10) 5) else none

/-- Cart lines for the concrete compensation scenario: the same product
twice, so the bulk check passes but the second reservation fails. -/
def compItems : List CartItem := [CartItem.mk "p1" 5 10, CartItem.mk "p1" 1 10]

/-- The product table after reserving 5 units and releasing them again in the
compensation scenario. -/
def compDB2 : DB :=
  DB.update (DB.update compDB "p1" (Product.mk "Widget" (some 10) 0)) "p1"
    (Product.mk "Widget" (some 10) 5)

/-- Witness for C2: a two-line cart over one product with stock 5; line 1
reserves all 5 units, line 2 fails, the release restores the stock. -/
theorem C2_conversion_compensates_witness :
    compItems ≠ [] ∧
    prelimTotal compDB compItems = .ok 60 ∧
    validate_order_items_errors compItems = [] ∧
    (check_multiple_products_stock compDB
      (compItems.map (fun it => LineReq.mk it.product_id it.quantity))).all_available = true ∧
    reserveLoop compDB compItems [] = .error
      ("Failed to reserve stock for product p1: Cannot reserve units. Insufficient stock",
        compDB2) ∧
    (create_order_from_cart compDB compItems
      = ConvResult.mk
          (.error "Failed to reserve stock for product p1: Cannot reserve units. Insufficient stock")
          compDB2 true false ∧
      ∀ pid, stockOf compDB2 pid = stockOf compDB pid) :=
  ⟨by simp [compItems], by norm_num [prelimTotal, Except.map, compDB, compItems],
    rfl, rfl, rfl,
    C2_conversion_compensates_on_partial_failure compDB compItems _ compDB2 60
      (by simp [compItems]) (by norm_num [prelimTotal, Except.map, compDB, compItems])
      rfl rfl rfl⟩

/-- Product table for the bulk-check failure scenario: product A ("Widget")
has stock 10, product B ("Gadget") has stock 0. -/
def bulkDB : DB :=
  fun pid =>
    if pid = "A" then some (Product.mk "Widget" (some 5) 10)
    else if pid = "B" then some (Product.mk "Gadget" (some 3) 0)
    else none

/-- Cart lines for the bulk-check failure scenario. -/
def bulkItems : List CartItem := [CartItem.mk "A" 1 5, CartItem.mk "B" 1 3]

/-- Claim C8, evaluated at the failing input: the conversion does abort at
the bulk stock check with no order row created and no stock changed, and the
error does report available versus requested quantities — but it names the
short-falling product as "Unknown Product" instead of its name "Gadget",
because the stock-check record carries no `product_id` key and the lookup
uses the literal key `unknown`. -/
theorem C8_bulk_check_failure_eval :
    (create_order_from_cart bulkDB bulkItems).result
      = .error "Insufficient stock for items: Unknown Product: Insufficient stock (Available: 0, Requested: 1)" ∧
    (create_order_from_cart bulkDB bulkItems).orderCreated = false ∧
    (create_order_from_cart bulkDB bulkItems).cartCleared = false ∧
    (create_order_from_cart bulkDB bulkItems).db = bulkDB ∧
    bulkDB "B" = some (Product.mk "Gadget" (some 3) 0) :=
  ⟨rfl, rfl, rfl, rfl, rfl⟩

end TechOnline
